import Mathlib

/-!
Verification of the device-coordination core of the moon-scanner application
(`moon_scanner_GUI.py`, class `MoonScannerGUI`).

The embedding models the numeric entries of the GUI as exact rationals, numpy
arrays as lists of rationals, mount commands as an explicit trace, and the
session flags (`scanning`, `recording`, `camera_running`, ...) as a record.
Python `try`/`except` blocks are modelled with `Except`, with a separate
catching wrapper where the source swallows the exception.
-/

namespace MoonScanner

/-- Python `int()` applied to an exact (rational) value: truncation toward
zero. -/
def pyTrunc (q : ℚ) : ℤ := if 0 ≤ q then ⌊q⌋ else ⌈q⌉

/-- Python 3 `round()` applied to an exact (rational) value: round half to
even. -/
def pyRound (q : ℚ) : ℤ :=
  if q - (⌊q⌋ : ℚ) = 1 / 2 then (if ⌊q⌋ % 2 = 0 then ⌊q⌋ else ⌊q⌋ + 1)
  else round q

/-- `track_moon` lines 946-947:
`total_angle_arcsec = self.scan_angle * 3600` and
`num_steps = int(total_angle_arcsec / self.scan_step)`. -/
def num_steps (scan_angle scan_step : ℚ) : ℤ :=
  pyTrunc (scan_angle * 3600 / scan_step)

/-- A command written to the mount: either an ASCOM `MoveAxis(axis, rate)`
call or a serial `RA{steps:+06d}` write. -/
inductive MountCommand where
  | moveAxis (axis : ℤ) (rate : ℚ)
  | serialWrite (steps : ℤ)
deriving DecidableEq, Repr

/-- A command that moves the mount: a serial write, or `MoveAxis` with a
nonzero rate. -/
def MountCommand.isMove : MountCommand → Bool
  | .moveAxis _ r => if r = 0 then false else true
  | .serialWrite _ => true

/-- An axis-stop command: `MoveAxis` with rate `0`. -/
def MountCommand.isAxisStop : MountCommand → Bool
  | .moveAxis _ r => if r = 0 then true else false
  | .serialWrite _ => false

/-- The session flags and scan parameters of `MoonScannerGUI`.
`ascom_telescope` and `serial_mount` record whether `self.ascom_telescope`
resp. `self.mount` hold a live handle. -/
structure SessionState where
  running : Bool
  scanning : Bool
  recording : Bool
  capture_running : Bool
  camera_running : Bool
  spectrograph_running : Bool
  mount_initialized : Bool
  ascom_telescope : Bool
  serial_mount : Bool
  sample_count : Nat
  scan_angle : ℚ
  scan_step : ℚ
  scan_speed : ℚ
  dark_spectrum : Option (List ℚ)
deriving DecidableEq, Repr

/-- `apply_correction` (line 1329): a stub returning `0.0`. -/
def apply_correction (_angle_degrees : ℚ) : ℚ := 0

/-- Commands issued by one `move_mount(angle_degrees)` call (lines 903-933).
With an ASCOM handle: `MoveAxis(0, ra_rate)`, a timed wait, then
`MoveAxis(0, 0)`.  With only a serial handle: one
`RA{int(round(angle*3600/15)):+06d}` write.  With neither: nothing. -/
def move_mount_cmds (ascom serial : Bool) (scan_speed angle_degrees : ℚ) :
    List MountCommand :=
  if ascom then
    let rate_degrees_sec := scan_speed / 3600
    let ra_rate := if 0 ≤ angle_degrees then rate_degrees_sec else -rate_degrees_sec
    [.moveAxis 0 ra_rate, .moveAxis 0 0]
  else if serial then
    [.serialWrite (pyRound (angle_degrees * 3600 / 15))]
  else []

/-- Commands issued by one `stop_mount_manual()` call (lines 1267-1276):
`MoveAxis(0, 0)` and `MoveAxis(1, 0)` when an ASCOM handle exists, and
nothing at all otherwise (the body is guarded by `if self.ascom_telescope`). -/
def stop_mount_manual_cmds (ascom : Bool) : List MountCommand :=
  if ascom then [.moveAxis 0 0, .moveAxis 1 0] else []

/-- The adjusted target angle of scan step `i` (lines 956-958):
`current_angle_arcsec = i * scan_step`, then
`i*scan_step/3600 + apply_correction(i*scan_step/3600)`. -/
def step_angle_deg (scan_step : ℚ) (i : Nat) : ℚ :=
  (i : ℚ) * scan_step / 3600 + apply_correction ((i : ℚ) * scan_step / 3600)

/-- The commands issued by the `for i in range(num_steps)` loop of
`track_moon` (lines 951-966).  `scanFlag i` is the value of `self.scanning`
read at the boundary of step `i`; the loop breaks at the first step whose
flag reads false.  Per-step exceptions are caught and logged, so every
executed step contributes its `move_mount` commands. -/
def track_moon_loop_cmds (st : SessionState) (scanFlag : Nat → Bool) :
    List MountCommand :=
  let n := (num_steps st.scan_angle st.scan_step).toNat
  ((List.range n).takeWhile scanFlag).flatMap
    (fun i => move_mount_cmds st.ascom_telescope st.serial_mount st.scan_speed
      (step_angle_deg st.scan_step i))

/-- Outcome of a `track_moon` call: refused at the guard, or ran and produced
a command trace. -/
inductive ScanOutcome where
  | refused
  | ran (trace : List MountCommand)
deriving DecidableEq, Repr

/-- `track_moon` (lines 935-974): refuse when `self.mount_initialized` is
false; otherwise run the step loop and, on loop exit for any reason, make a
single `stop_mount_manual()` call (line 968). -/
def track_moon (st : SessionState) (scanFlag : Nat → Bool) : ScanOutcome :=
  if !st.mount_initialized then .refused
  else .ran (track_moon_loop_cmds st scanFlag ++
    stop_mount_manual_cmds st.ascom_telescope)

/-- C4: for positive sweep angle `A` (degrees) and positive step size `S`
(arcseconds), the scan planner computes `floor(A*3600 / S)` steps (Python
`int()` truncates toward zero, which on a positive quotient is the floor). -/
theorem num_steps_eq_floor (A S : ℚ) (hA : 0 < A) (hS : 0 < S) :
    num_steps A S = ⌊A * 3600 / S⌋ := by
  unfold num_steps pyTrunc
  rw [if_pos]
  apply div_nonneg _ hS.le
  positivity

theorem num_steps_eq_floor_witness :
    num_steps (1 / 5) 10 = ⌊(1 / 5 : ℚ) * 3600 / 10⌋ ∧ num_steps (1 / 5) 10 = 72 :=
  ⟨num_steps_eq_floor (1 / 5) 10 (by norm_num) (by norm_num), by
    unfold num_steps pyTrunc
    norm_num⟩

/-- Whether a `track_moon` call was refused at its mount guard. -/
def ScanOutcome.isRefused : ScanOutcome → Bool
  | .refused => true
  | .ran _ => false

/-- The command trace of a `track_moon` call (empty when refused). -/
def ScanOutcome.trace : ScanOutcome → List MountCommand
  | .refused => []
  | .ran tr => tr

/-- `start_scan` (lines 1199-1210): return `False` when either sensor is not
running; otherwise spawn the `track_moon` thread and return `True`.  No mount
check happens here. -/
def start_scan (st : SessionState) : Bool :=
  if !st.camera_running || !st.spectrograph_running then false else true

/-- `stop_scan` (lines 1212-1220): set `self.scanning = False`; nothing else
in the session state changes and no exception escapes. -/
def stop_scan (st : SessionState) : SessionState :=
  {st with scanning := false}

/-- `toggle_record` (lines 1222-1245): when recording, clear `recording` and
`capture_running`; otherwise engage both only if camera and spectrograph are
running, else change nothing. -/
def toggle_record (st : SessionState) : SessionState :=
  if st.recording then {st with recording := false, capture_running := false}
  else if !st.camera_running || !st.spectrograph_running then st
  else {st with recording := true, capture_running := true}

/-- `set_scan_angle` body (lines 355-362): parse the entry as a float
(`none` models a non-numeric entry) and raise `ValueError` unless it is
strictly positive. -/
def set_scan_angle_body (entry : Option ℚ) : Except String ℚ :=
  match entry with
  | none => .error "could not convert string to float"
  | some angle => if angle ≤ 0 then .error "Scan angle must be positive" else .ok angle

/-- `set_scan_angle` (lines 355-368): the body wrapped in the
`except ValueError` / `except Exception` handlers, which leave
`self.scan_angle` unchanged and let nothing escape. -/
def set_scan_angle (entry : Option ℚ) (scan_angle : ℚ) : ℚ :=
  match set_scan_angle_body entry with
  | .ok v => v
  | .error _ => scan_angle

/-- `set_scan_step` body (lines 370-378). -/
def set_scan_step_body (entry : Option ℚ) : Except String ℚ :=
  match entry with
  | none => .error "could not convert string to float"
  | some step => if step ≤ 0 then .error "Step offset must be positive" else .ok step

/-- `set_scan_step` (lines 370-384) with its handlers. -/
def set_scan_step (entry : Option ℚ) (scan_step : ℚ) : ℚ :=
  match set_scan_step_body entry with
  | .ok v => v
  | .error _ => scan_step

/-- `set_scan_speed` body (lines 386-393). -/
def set_scan_speed_body (entry : Option ℚ) : Except String ℚ :=
  match entry with
  | none => .error "could not convert string to float"
  | some speed => if speed ≤ 0 then .error "Scan speed must be positive" else .ok speed

/-- `set_scan_speed` (lines 386-399) with its handlers. -/
def set_scan_speed (entry : Option ℚ) (scan_speed : ℚ) : ℚ :=
  match set_scan_speed_body entry with
  | .ok v => v
  | .error _ => scan_speed

/-- C9: `stop_scan` on an already-idle session (scanning flag false) is a
no-op, and `stop_scan` composed with itself equals a single `stop_scan`. -/
theorem stop_scan_idempotent (st : SessionState) :
    stop_scan (stop_scan st) = stop_scan st ∧
    (st.scanning = false → stop_scan st = st) := by
  refine ⟨rfl, fun h => ?_⟩
  cases st
  simp_all [stop_scan]

theorem stop_scan_idempotent_witness :
    stop_scan (stop_scan ⟨true, false, false, false, true, true, true, true, false,
        0, 1 / 5, 10, 1, none⟩) =
      stop_scan ⟨true, false, false, false, true, true, true, true, false,
        0, 1 / 5, 10, 1, none⟩ ∧
    stop_scan ⟨true, false, false, false, true, true, true, true, false,
        0, 1 / 5, 10, 1, none⟩ =
      ⟨true, false, false, false, true, true, true, true, false, 0, 1 / 5, 10, 1, none⟩ :=
  ⟨(stop_scan_idempotent _).1, (stop_scan_idempotent _).2 rfl⟩

/-- C8 counterexample: with both sensors running but the mount uninitialized,
`start_scan` still returns true — the claim that it returns true only when
the mount is ready fails at this state. -/
theorem start_scan_true_with_mount_not_ready :
    start_scan ⟨true, false, false, false, true, true, false, false, false,
      0, 1 / 5, 10, 1, none⟩ = true ∧
    (⟨true, false, false, false, true, true, false, false, false,
      0, 1 / 5, 10, 1, none⟩ : SessionState).mount_initialized = false :=
  ⟨rfl, rfl⟩

/-- C8 (amended): `start_scan` returns true exactly when both sensors are
running (the mount is not consulted); `toggle_record` engages recording and
the capture loop exactly when not already recording and both sensors are
running; the mount-ready check is enforced inside the scan task, which
refuses exactly when the mount is uninitialized. -/
theorem session_gate_behavior (st : SessionState) (f : Nat → Bool) :
    start_scan st = (st.camera_running && st.spectrograph_running) ∧
    (toggle_record st).recording =
      (!st.recording && (st.camera_running && st.spectrograph_running)) ∧
    (track_moon st f).isRefused = !st.mount_initialized := by
  refine ⟨?_, ?_, ?_⟩
  · unfold start_scan
    cases st.camera_running <;> cases st.spectrograph_running <;> simp
  · unfold toggle_record
    cases h : st.recording <;>
      cases hc : st.camera_running <;> cases hs : st.spectrograph_running <;>
      simp_all
  · unfold track_moon
    cases h : st.mount_initialized <;> simp [ScanOutcome.isRefused]

/-- C10: each scan-parameter setter stores the entered value only when it is
a positive number; a non-numeric or non-positive entry leaves the stored
parameter unchanged, and the `ValueError` raised inside the body never
escapes (the setters return a plain value). -/
theorem scan_param_setters_validate (v cur : ℚ) :
    set_scan_angle none cur = cur ∧
    set_scan_step none cur = cur ∧
    set_scan_speed none cur = cur ∧
    set_scan_angle (some v) cur = (if v ≤ 0 then cur else v) ∧
    set_scan_step (some v) cur = (if v ≤ 0 then cur else v) ∧
    set_scan_speed (some v) cur = (if v ≤ 0 then cur else v) := by
  refine ⟨rfl, rfl, rfl, ?_, ?_, ?_⟩
  · rcases le_or_lt v 0 with h | h
    · simp [set_scan_angle, set_scan_angle_body, h]
    · simp [set_scan_angle, set_scan_angle_body, h.not_le]
  · rcases le_or_lt v 0 with h | h
    · simp [set_scan_step, set_scan_step_body, h]
    · simp [set_scan_step, set_scan_step_body, h.not_le]
  · rcases le_or_lt v 0 with h | h
    · simp [set_scan_speed, set_scan_speed_body, h]
    · simp [set_scan_speed, set_scan_speed_body, h.not_le]

/-- A list built by `flatMap` has at most one match per block when every
block contributes at most one. -/
theorem countP_flatMap_le_length {α β : Type} (p : β → Bool) (f : α → List β)
    (h : ∀ a, (f a).countP p ≤ 1) (l : List α) :
    (l.flatMap f).countP p ≤ l.length := by
  induction l with
  | nil => simp
  | cons a t ih =>
    rw [List.flatMap_cons, List.countP_append, List.length_cons]
    have ha := h a
    omega

/-- A list built by `flatMap` has no match when no block has one. -/
theorem countP_flatMap_zero {α β : Type} (p : β → Bool) (f : α → List β)
    (h : ∀ a, (f a).countP p = 0) (l : List α) :
    (l.flatMap f).countP p = 0 := by
  induction l with
  | nil => simp
  | cons a t ih =>
    rw [List.flatMap_cons, List.countP_append, ih, h a]

/-- One `move_mount` call issues at most one movement command (the ASCOM
branch also issues its own per-step `MoveAxis(0, 0)`, which is not a move). -/
theorem move_mount_cmds_move_le_one (ascom serial : Bool) (speed angle : ℚ) :
    (move_mount_cmds ascom serial speed angle).countP (fun c => c.isMove) ≤ 1 := by
  cases ascom <;> cases serial <;>
    simp [move_mount_cmds, List.countP_cons, List.countP_nil,
      MountCommand.isMove] <;>
    split <;> simp <;> split <;> simp

/-- A `move_mount` call with no ASCOM handle never issues an axis-stop
command (the serial branch is a single `RA...` write). -/
theorem move_mount_cmds_serial_no_stop (serial : Bool) (speed angle : ℚ) :
    (move_mount_cmds false serial speed angle).countP (fun c => c.isAxisStop) = 0 := by
  cases serial <;>
    simp [move_mount_cmds, List.countP_cons, MountCommand.isAxisStop]

/-- C1 counterexample: a completed serial-backend scan (mount initialized,
serial handle only, one step, never cancelled) issues zero axis-stop
commands, because the `stop_mount_manual` body is guarded by
`if self.ascom_telescope` — not one axis-stop "regardless of backend". -/
theorem serial_scan_issues_no_axis_stop :
    ((track_moon ⟨true, true, false, false, true, true, true, false, true,
        0, 1 / 360, 10, 1, none⟩ (fun _ => true)).trace.countP
      (fun c => c.isAxisStop)) = 0 ∧
    (track_moon ⟨true, true, false, false, true, true, true, false, true,
        0, 1 / 360, 10, 1, none⟩ (fun _ => true)).isRefused = false := by
  constructor
  · show ((track_moon_loop_cmds ⟨true, true, false, false, true, true, true, false, true,
        0, 1 / 360, 10, 1, none⟩ (fun _ => true)) ++
        stop_mount_manual_cmds false).countP (fun c => c.isAxisStop) = 0
    rw [List.countP_append]
    have hloop : (track_moon_loop_cmds ⟨true, true, false, false, true, true, true, false,
        true, 0, 1 / 360, 10, 1, none⟩ (fun _ => true)).countP
        (fun c => c.isAxisStop) = 0 := by
      unfold track_moon_loop_cmds
      exact countP_flatMap_zero _ _ (fun i => move_mount_cmds_serial_no_stop true _ _) _
    rw [hloop]
    simp [stop_mount_manual_cmds]
  · rfl

/-- C1 (amended): on loop exit `track_moon` makes exactly one unconditional
`stop_mount_manual` call; that call issues two axis-stop commands when the
ASCOM backend is connected and none when only the serial backend is; and at
most `stepCount` move commands are issued during the sweep. -/
theorem scan_stop_policy_and_move_bound (st : SessionState) (scanFlag : Nat → Bool) :
    track_moon st scanFlag =
      (if st.mount_initialized then
        ScanOutcome.ran (track_moon_loop_cmds st scanFlag ++
          stop_mount_manual_cmds st.ascom_telescope)
      else ScanOutcome.refused) ∧
    ((track_moon_loop_cmds st scanFlag ++
        stop_mount_manual_cmds st.ascom_telescope).countP (fun c => c.isMove)) ≤
      (num_steps st.scan_angle st.scan_step).toNat ∧
    ((stop_mount_manual_cmds st.ascom_telescope).countP (fun c => c.isAxisStop)) =
      (if st.ascom_telescope then 2 else 0) := by
  refine ⟨?_, ?_, ?_⟩
  · unfold track_moon
    cases h : st.mount_initialized <;> simp
  · rw [List.countP_append]
    have h1 : (track_moon_loop_cmds st scanFlag).countP (fun c => c.isMove) ≤
        (num_steps st.scan_angle st.scan_step).toNat := by
      unfold track_moon_loop_cmds
      refine le_trans
        (countP_flatMap_le_length _ _
          (fun i => move_mount_cmds_move_le_one _ _ _ _) _) ?_
      have := (List.takeWhile_sublist
        (l := List.range (num_steps st.scan_angle st.scan_step).toNat) scanFlag).length_le
      simpa using this
    have h2 : (stop_mount_manual_cmds st.ascom_telescope).countP
        (fun c => c.isMove) = 0 := by
      cases h : st.ascom_telescope <;>
        simp [stop_mount_manual_cmds, List.countP_cons, MountCommand.isMove]
    omega
  · cases h : st.ascom_telescope <;>
      simp [stop_mount_manual_cmds, List.countP_cons, MountCommand.isAxisStop]

/-- The sample-counter update of `capture_and_save` (lines 891-892):
`if image_saved or spectrum_saved: self.sample_count += 1`. -/
def next_sample_count (sample_count : Nat) (image_saved spectrum_saved : Bool) : Nat :=
  if image_saved || spectrum_saved then sample_count + 1 else sample_count

/-- The sample numbers logged by successive capture cycles (line 893 logs
`Sample {self.sample_count}` exactly in the cycles that saved something).
Each cycle is the pair `(image_saved, spectrum_saved)`. -/
def recorded_samples (sample_count : Nat) : List (Bool × Bool) → List Nat
  | [] => []
  | (i, s) :: rest =>
    if i || s then
      next_sample_count sample_count i s ::
        recorded_samples (next_sample_count sample_count i s) rest
    else recorded_samples (next_sample_count sample_count i s) rest

/-- The value of `self.sample_count` after a run of capture cycles. -/
def final_sample_count (sample_count : Nat) : List (Bool × Bool) → Nat
  | [] => sample_count
  | (i, s) :: rest => final_sample_count (next_sample_count sample_count i s) rest

/-- C5: the counter increases by exactly one per cycle in which
`image_saved` or `spectrum_saved` holds and by zero otherwise, so the
recorded sample numbers are the consecutive integers starting right after
the initial counter — strictly increasing with no gaps. -/
theorem sample_numbers_consecutive (c : Nat) (cycles : List (Bool × Bool)) :
    recorded_samples c cycles =
      List.range' (c + 1) (cycles.countP (fun p => p.1 || p.2)) ∧
    final_sample_count c cycles = c + cycles.countP (fun p => p.1 || p.2) := by
  induction cycles generalizing c with
  | nil => simp [recorded_samples, final_sample_count]
  | cons p rest ih =>
    obtain ⟨i, s⟩ := p
    cases hi : (i || s) with
    | false =>
      refine ⟨?_, ?_⟩
      · simp [recorded_samples, next_sample_count, hi, (ih c).1, List.countP_cons]
      · simp [final_sample_count, next_sample_count, hi, (ih c).2, List.countP_cons]
    | true =>
      refine ⟨?_, ?_⟩
      · rw [show (List.countP (fun p => p.1 || p.2) ((i, s) :: rest)) =
            List.countP (fun p => p.1 || p.2) rest + 1 by simp [List.countP_cons, hi]]
        rw [List.range'_succ]
        simp [recorded_samples, next_sample_count, hi, (ih (c + 1)).1,
          Nat.add_assoc, Nat.add_comm, Nat.add_left_comm]
      · rw [show (List.countP (fun p => p.1 || p.2) ((i, s) :: rest)) =
            List.countP (fun p => p.1 || p.2) rest + 1 by simp [List.countP_cons, hi]]
        have h2 : final_sample_count c ((i, s) :: rest) =
            final_sample_count (c + 1) rest := by
          simp [final_sample_count, next_sample_count, hi]
        rw [h2, (ih (c + 1)).2]
        omega

/-- What one iteration of the `capture_and_save` loop (lines 836-901) did:
the `while` condition read false and the loop exited; the sensor check at the
top of the body tripped and the pipeline halted; or a normal cycle ran with
the given save outcomes. -/
inductive CaptureStep where
  | exited
  | halted
  | cycled (image_saved spectrum_saved : Bool)
deriving DecidableEq, Repr

/-- One iteration of `capture_and_save`: first the loop condition
`self.capture_running and self.running` (line 839), then the sensor check
(lines 840-846) which clears `capture_running` and `recording` and breaks,
then the capture body whose only session-state effect is the sample
counter (lines 891-892). -/
def capture_cycle (st : SessionState) (image_saved spectrum_saved : Bool) :
    SessionState × CaptureStep :=
  if !(st.capture_running && st.running) then (st, .exited)
  else if !st.camera_running || !st.spectrograph_running then
    ({st with capture_running := false, recording := false}, .halted)
  else
    ({st with sample_count := next_sample_count st.sample_count image_saved spectrum_saved},
      .cycled image_saved spectrum_saved)

/-- C7: if either sensor's running flag is false while the capture session is
active, the very next cycle halts the whole pipeline (clearing
`capture_running` and `recording`, so the spectral branch does not run and
no sample is produced), and every cycle after that exits immediately. -/
theorem pipeline_halts_on_sensor_stop (st : SessionState)
    (i s i2 s2 : Bool)
    (hc : st.capture_running = true) (hr : st.running = true)
    (hs : st.camera_running = false ∨ st.spectrograph_running = false) :
    capture_cycle st i s =
      ({st with capture_running := false, recording := false}, .halted) ∧
    (capture_cycle {st with capture_running := false, recording := false} i2 s2).2 =
      .exited ∧
    ({st with capture_running := false, recording := false} :
      SessionState).sample_count = st.sample_count := by
  refine ⟨?_, ?_, rfl⟩
  · unfold capture_cycle
    rcases hs with h | h <;> simp [hc, hr, h]
  · unfold capture_cycle
    simp

theorem pipeline_halts_on_sensor_stop_witness :
    capture_cycle ⟨true, false, true, true, false, true, true, true, false,
        5, 1 / 5, 10, 1, none⟩ true true =
      ({(⟨true, false, true, true, false, true, true, true, false,
          5, 1 / 5, 10, 1, none⟩ : SessionState) with
        capture_running := false, recording := false}, .halted) ∧
    (capture_cycle {(⟨true, false, true, true, false, true, true, true, false,
          5, 1 / 5, 10, 1, none⟩ : SessionState) with
        capture_running := false, recording := false} false false).2 = .exited ∧
    ({(⟨true, false, true, true, false, true, true, true, false,
          5, 1 / 5, 10, 1, none⟩ : SessionState) with
        capture_running := false, recording := false} :
      SessionState).sample_count =
      (⟨true, false, true, true, false, true, true, true, false,
          5, 1 / 5, 10, 1, none⟩ : SessionState).sample_count :=
  pipeline_halts_on_sensor_stop _ true true false false rfl rfl (Or.inl rfl)

/-- The dark-subtraction step of `capture_and_save` (lines 875-876):
`if self.dark_spectrum is not None and len(intensities) == len(self.dark_spectrum)`
subtract elementwise, else leave the intensities unchanged. -/
def dark_subtract_capture (dark_spectrum : Option (List ℚ)) (intensities : List ℚ) :
    List ℚ :=
  match dark_spectrum with
  | some dark =>
    if intensities.length = dark.length then
      List.zipWith (fun a b => a - b) intensities dark
    else intensities
  | none => intensities

/-- Python truth value of a numpy array: an empty array is falsy, a
one-element array has the truth value of its element, and any larger array
raises `ValueError: The truth value of an array ... is ambiguous`. -/
def ndarray_truthy (a : List ℚ) : Except String Bool :=
  match a with
  | [] => .ok false
  | [x] => .ok (if x = 0 then false else true)
  | _ => .error "truth value of an array with more than one element is ambiguous"

/-- The dark-subtraction step of `update_spectrum` (lines 1132-1133), which
tests `if self.dark_spectrum and len(intensities) == len(self.dark_spectrum)`:
evaluating a numpy array as a boolean, so a stored dark spectrum with two or
more samples raises before any subtraction can happen (the loop's handler
then logs and breaks). -/
def dark_subtract_update (dark_spectrum : Option (List ℚ)) (intensities : List ℚ) :
    Except String (List ℚ) :=
  match dark_spectrum with
  | none => .ok intensities
  | some dark =>
    match ndarray_truthy dark with
    | .error e => .error e
    | .ok false => .ok intensities
    | .ok true =>
      if intensities.length = dark.length then
        .ok (List.zipWith (fun a b => a - b) intensities dark)
      else .ok intensities

/-- C3 fails in `update_spectrum`: at a dark baseline `[1, 2]` and
intensities `[5, 7]` of identical length, `capture_and_save` subtracts
elementwise as the claim states, but `update_spectrum` raises (numpy array
truthiness) instead of producing the difference — the contract does not hold
in every consumer of the dark baseline. -/
theorem dark_subtract_consumers_disagree :
    dark_subtract_capture (some [1, 2]) [5, 7] = [4, 5] ∧
    dark_subtract_update (some [1, 2]) [5, 7] =
      .error "truth value of an array with more than one element is ambiguous" := by
  constructor
  · show (if ([5, 7] : List ℚ).length = ([1, 2] : List ℚ).length then
      List.zipWith (fun a b => a - b) [5, 7] [1, 2] else [5, 7]) = [4, 5]
    norm_num
  · rfl

/-- A process as seen by the recovery scans: its name and the ports that
appear among its open handles. -/
structure RecoveryProc where
  name : String
  open_ports : List String
deriving DecidableEq, Repr

/-- The environment one `reset_com_port` call observes.  Scans are indexed
by the attempt number (the process table can change between attempts); the
`..._raises` flags model the exceptions the source catches around each
rung.  The WMI rung (lines 544-557) only terminates matching holders and
cannot produce the function's return value, so it does not appear here. -/
structure RecoveryEnv where
  psutil_procs : Nat → List RecoveryProc
  psutil_raises : Nat → Bool
  devcon_exists : Bool
  devcon_ok : Nat → Bool
  devcon_raises : Nat → Bool

/-- The psutil rung of one attempt (lines 559-571): scan the process table
for a handle on the port; may raise (caught by its `except`). -/
def psutil_scan (env : RecoveryEnv) (port : String) (attempt : Nat) :
    Except String Bool :=
  if env.psutil_raises attempt then .error "psutil scan failed"
  else .ok ((env.psutil_procs attempt).any (fun pr => pr.open_ports.contains port))

/-- The devcon rung of one attempt (lines 573-585): restart the port at the
driver level; may raise (caught by its `except`). -/
def devcon_restart (env : RecoveryEnv) (attempt : Nat) : Except String Bool :=
  if env.devcon_raises attempt then .error "devcon restart failed"
  else .ok (env.devcon_ok attempt)

/-- The `try`/`except` wrappers around each rung: an exception is logged and
treated as no success. -/
def rung_caught (r : Except String Bool) : Bool :=
  match r with
  | .ok b => b
  | .error _ => false

/-- One attempt of the `for attempt in range(3)` loop of `reset_com_port`:
the psutil rung returns `True` when it terminated a holder; otherwise the
devcon rung returns `True` when the restart succeeded; otherwise the
attempt fails and the loop backs off (`time.sleep(2 ** attempt)`). -/
def reset_attempt (env : RecoveryEnv) (port : String) (attempt : Nat) : Bool :=
  if rung_caught (psutil_scan env port attempt) then true
  else if env.devcon_exists && rung_caught (devcon_restart env attempt) then true
  else false

/-- `reset_com_port` (lines 540-591): the three-attempt loop, unrolled as
the `range(3)` loop executes; the second component counts the attempts
performed.  The outer `except` returns `False`, so the call always returns
a boolean and never propagates an exception. -/
def reset_com_port (env : RecoveryEnv) (port : String) : Bool × Nat :=
  if reset_attempt env port 0 then (true, 1)
  else if reset_attempt env port 1 then (true, 2)
  else if reset_attempt env port 2 then (true, 3)
  else (false, 3)

/-- C6: every `reset_com_port` call performs at most three attempts,
terminates with a boolean for every environment (no exception leaves the
boundary — the rung errors are caught by `rung_caught` and the result type
is a plain boolean), and a `false` result means the full attempt budget was
spent. -/
theorem reset_com_port_bounded (env : RecoveryEnv) (port : String) :
    (reset_com_port env port).2 ≤ 3 ∧
    ((reset_com_port env port).1 = true ∨ reset_com_port env port = (false, 3)) := by
  unfold reset_com_port
  split
  · exact ⟨by omega, Or.inl rfl⟩
  · split
    · exact ⟨by omega, Or.inl rfl⟩
    · split
      · exact ⟨by omega, Or.inl rfl⟩
      · exact ⟨by omega, Or.inr rfl⟩

/-- The environment one `initialize_mount` call observes.  `serial_response`
tells whether the identity probe (`V` then `read(10)`) on a port returns a
nonempty response at a given attempt; `win32com` is whether the ASCOM COM
bindings imported; the two `ascom_*` flags are whether `Connected` reads
true after `Dispatch` and whether unpark/tracking setup succeeds. -/
structure MountEnv where
  available_ports : List String
  selected_port : String
  serial_response : String → Nat → Bool
  win32com : Bool
  ascom_connect_ok : Bool
  ascom_setup_ok : Bool

/-- `ports_to_try` (line 752): the selected port first, then the remaining
detected ports. -/
def ports_to_try (env : MountEnv) : List String :=
  env.selected_port :: env.available_ports.filter (fun p => p != env.selected_port)

/-- The candidates actually probed: the loop skips a candidate not in the
detected list (lines 754-756). -/
def valid_ports (env : MountEnv) : List String :=
  (ports_to_try env).filter (fun p => env.available_ports.contains p)

/-- Whether the 10-attempt serial loop on one port (lines 758-784) ever gets
a response. -/
def try_serial_port (env : MountEnv) (port : String) : Bool :=
  (List.range 10).any (fun attempt => env.serial_response port attempt)

/-- The serial phase of `initialize_mount` (lines 750-790): the first
candidate whose probe loop succeeds, if any. -/
def serial_phase (env : MountEnv) : Option String :=
  (valid_ports env).find? (fun p => try_serial_port env p)

/-- How many probe attempts the 10-attempt loop makes on one port: up to and
including the first success, or all ten. -/
def attempts_made (env : MountEnv) (port : String) : Nat :=
  match (List.range 10).findIdx? (fun a => env.serial_response port a) with
  | some i => i + 1
  | none => 10

/-- The ports the serial phase actually probes: every candidate up to and
including the first connecting one. -/
def ports_tried (env : MountEnv) : List String :=
  match (valid_ports env).findIdx? (fun p => try_serial_port env p) with
  | some i => (valid_ports env).take (i + 1)
  | none => valid_ports env

/-- A connection attempt made during `initialize_mount`: one serial probe,
or the single ASCOM `Dispatch`/`Connected = True` block (lines 792-821). -/
inductive InitEvent where
  | serialAttempt (port : String) (attempt : Nat)
  | ascomAttempt
deriving DecidableEq, Repr

/-- The connection attempts `initialize_mount` makes, in order: the serial
probes, then — only if no serial candidate connected and win32com imported
(`if not self.mount and win32com`, line 792) — the one ASCOM attempt. -/
def initialize_mount_events (env : MountEnv) : List InitEvent :=
  let serial_events := (ports_tried env).flatMap
    (fun p => (List.range (attempts_made env p)).map
      (fun a => InitEvent.serialAttempt p a))
  match serial_phase env with
  | some _ => serial_events
  | none =>
    if env.win32com then serial_events ++ [InitEvent.ascomAttempt]
    else serial_events

/-- The mount-related state `initialize_mount` leaves behind. -/
structure MountResult where
  mount : Option String
  ascom_telescope : Bool
  mount_initialized : Bool
deriving DecidableEq, Repr

/-- `initialize_mount` (lines 727-834): serial phase first; if it fails and
win32com is available, one ASCOM attempt whose success needs `Connected` to
read true and the unpark/tracking setup to not raise (a `CanMoveAxis` probe
failure is non-fatal, line 809); on failure everything is left not-ready. -/
def initialize_mount (env : MountEnv) : MountResult :=
  match serial_phase env with
  | some p => ⟨some p, false, true⟩
  | none =>
    if env.win32com && (env.ascom_connect_ok && env.ascom_setup_ok) then
      ⟨none, true, true⟩
    else ⟨none, false, false⟩

/-- Outcome of a `move_mount_manual` call (lines 1247-1265): refused at its
`if not self.ascom_telescope` guard, or issued its `MoveAxis` commands. -/
inductive ManualOutcome where
  | refused
  | issued (cmds : List MountCommand)
deriving DecidableEq, Repr

/-- `move_mount_manual` (lines 1247-1265). -/
def move_mount_manual (ascom_telescope : Bool) (direction : String) (speed : ℚ) :
    ManualOutcome :=
  if !ascom_telescope then .refused
  else .issued (
    if direction = "North" then [.moveAxis 1 speed]
    else if direction = "South" then [.moveAxis 1 (-speed)]
    else if direction = "East" then [.moveAxis 0 (-speed)]
    else if direction = "West" then [.moveAxis 0 speed]
    else [])

/-- C2: when every serial candidate fails, exactly one ASCOM attempt is made
before reporting not-ready; and when that attempt also fails, the controller
is left not-ready, the scan task refuses to run, and manual moves are
refused. -/
theorem mount_fallback_one_ascom_attempt_then_refuse
    (env : MountEnv) (base : SessionState) (f : Nat → Bool)
    (d : String) (speed : ℚ)
    (hw : env.win32com = true)
    (hs : ∀ p a, env.serial_response p a = false)
    (ha : env.ascom_connect_ok = false ∨ env.ascom_setup_ok = false) :
    ((initialize_mount_events env).countP
      (fun e => e == InitEvent.ascomAttempt)) = 1 ∧
    (initialize_mount env).mount_initialized = false ∧
    (initialize_mount env).ascom_telescope = false ∧
    track_moon {base with
      mount_initialized := (initialize_mount env).mount_initialized,
      ascom_telescope := (initialize_mount env).ascom_telescope,
      serial_mount := (initialize_mount env).mount.isSome} f = .refused ∧
    move_mount_manual (initialize_mount env).ascom_telescope d speed = .refused := by
  have hprobe : ∀ p, try_serial_port env p = false := by
    intro p
    unfold try_serial_port
    simp [hs]
  have hphase : serial_phase env = none := by
    unfold serial_phase
    rw [List.find?_eq_none]
    intro p _
    simp [hprobe]
  have hfail : (env.win32com && (env.ascom_connect_ok && env.ascom_setup_ok)) = false := by
    rcases ha with h | h <;> simp [h]
  have hinit : initialize_mount env = ⟨none, false, false⟩ := by
    unfold initialize_mount
    rw [hphase, hfail]
    rfl
  refine ⟨?_, ?_, ?_, ?_, ?_⟩
  · unfold initialize_mount_events
    rw [hphase, hw]
    simp only [if_true, List.countP_append]
    have hserial : ((ports_tried env).flatMap
        (fun p => (List.range (attempts_made env p)).map
          (fun a => InitEvent.serialAttempt p a))).countP
        (fun e => e == InitEvent.ascomAttempt) = 0 := by
      refine countP_flatMap_zero _ _ (fun p => ?_) _
      rw [List.countP_eq_zero]
      intro e he
      rw [List.mem_map] at he
      obtain ⟨a, _, rfl⟩ := he
      simp
    rw [hserial]
    rfl
  · rw [hinit]
  · rw [hinit]
  · rw [hinit]
    rfl
  · rw [hinit]
    rfl

theorem mount_fallback_one_ascom_attempt_then_refuse_witness :
    ((initialize_mount_events ⟨["COM3"], "COM3", fun _ _ => false, true, false, false⟩).countP
      (fun e => e == InitEvent.ascomAttempt)) = 1 ∧
    (initialize_mount ⟨["COM3"], "COM3", fun _ _ => false, true, false,
      false⟩).mount_initialized = false ∧
    (initialize_mount ⟨["COM3"], "COM3", fun _ _ => false, true, false,
      false⟩).ascom_telescope = false ∧
    track_moon {(⟨true, false, false, false, true, true, true, true, true,
        0, 1 / 5, 10, 1, none⟩ : SessionState) with
      mount_initialized := (initialize_mount ⟨["COM3"], "COM3", fun _ _ => false,
        true, false, false⟩).mount_initialized,
      ascom_telescope := (initialize_mount ⟨["COM3"], "COM3", fun _ _ => false,
        true, false, false⟩).ascom_telescope,
      serial_mount := (initialize_mount ⟨["COM3"], "COM3", fun _ _ => false,
        true, false, false⟩).mount.isSome} (fun _ => true) = .refused ∧
    move_mount_manual (initialize_mount ⟨["COM3"], "COM3", fun _ _ => false,
      true, false, false⟩).ascom_telescope "North" 5 = .refused :=
  mount_fallback_one_ascom_attempt_then_refuse
    ⟨["COM3"], "COM3", fun _ _ => false, true, false, false⟩
    ⟨true, false, false, false, true, true, true, true, true, 0, 1 / 5, 10, 1, none⟩
    (fun _ => true) "North" 5 rfl (fun _ _ => rfl) (Or.inl rfl)

end MoonScanner
